import Mathlib

/-!
Verification of the yt-dlp HTTP API service (`docker/ytdlp-api/server.py`).

The Python source is shallowly embedded: each function of the service is
translated into a Lean definition over explicit state (the download
directory is a list of `(name, size)` entries, the admission pool and the
`active_downloads` counter are fields of a small state record), and the
external collaborators (the yt-dlp engine, the clock, the event loop) are
passed in as oracle arguments.  Machine reals only appear as exact
rationals over byte counts (a Python `float` holding `size / 2**20` is
exact for every realistic size), and Python string truthiness is embedded
explicitly.
-/

namespace Shoukaku

/-- Python `str.lower` (ASCII case folding), as used on the raw error text. -/
def lowerStr (s : String) : String := ⟨s.data.map Char.toLower⟩

/-- Embedding of `_parse_error` (server.py lines 191-216), parameterized by the
`MAX_DURATION` configuration value (env default 600).  Note on the first
branch: the Python condition is
`if "does not pass filter" and "duration" in lower:`, in which the literal
`"does not pass filter"` is a bare non-empty string and hence truthy, so the
whole condition evaluates to `"duration" in lower` alone.  The embedding
reproduces that evaluated condition. -/
def parse_error (maxDuration : Nat) (errorText : String) : String :=
  if "duration".data <:+: (lowerStr errorText).data then
    "DURATION_TOO_LONG:over " ++ toString (maxDuration / 60) ++ " minutes"
  else if "does not pass filter".data <:+: (lowerStr errorText).data then
    "DURATION_TOO_LONG:exceeds limit"
  else if "private video".data <:+: (lowerStr errorText).data ∨
      "sign in".data <:+: (lowerStr errorText).data then
    "This video is private or requires login"
  else if "copyright".data <:+: (lowerStr errorText).data ∨
      "blocked".data <:+: (lowerStr errorText).data then
    "This video is blocked due to copyright"
  else if "age".data <:+: (lowerStr errorText).data ∨
      "confirm your age".data <:+: (lowerStr errorText).data then
    "This video is age-restricted"
  else if "unavailable".data <:+: (lowerStr errorText).data ∨
      "not available".data <:+: (lowerStr errorText).data then
    "This video is unavailable"
  else if "live".data <:+: (lowerStr errorText).data then
    "Cannot download live streams"
  else if "premieres".data <:+: (lowerStr errorText).data ∨
      "scheduled".data <:+: (lowerStr errorText).data then
    "This video has not premiered yet"
  else if "members only".data <:+: (lowerStr errorText).data then
    "This video is for channel members only"
  else if "unsupported url".data <:+: (lowerStr errorText).data then
    "Unsupported URL or no video found"
  else errorText

/-- A raw metadata dictionary as reported by the yt-dlp engine: every field of
interest of the Python `dict` accessed via `info.get(...)`, where `none`
models an absent key (Python `None`). -/
structure RawInfo where
  title : Option String
  duration : Option Int
  filesize : Option Int
  filesize_approx : Option Int
  uploader : Option String
  thumbnail : Option String
  url : Option String
  webpage_url : Option String
deriving DecidableEq

/-- Python truthiness of an optional integer (`None` and `0` are falsy). -/
def truthyInt : Option Int → Bool
  | none => false
  | some n => n != 0

/-- Python truthiness of an optional string (`None` and `""` are falsy). -/
def truthyStr : Option String → Bool
  | none => false
  | some s => s != ""

/-- Python `a or b` on optional integers. -/
def pyOrInt (a b : Option Int) : Option Int := if truthyInt a then a else b

/-- Python `a or b` on optional strings. -/
def pyOrStr (a b : Option String) : Option String := if truthyStr a then a else b

/-- The normalized result of the info lookup. -/
structure InfoResult where
  title : Option String
  duration : Option Int
  filesize : Option Int
  uploader : Option String
  thumbnail : Option String
  url : Option String
deriving DecidableEq

/-- Embedding of the result mapping of `_extract_info` (server.py lines
110-117); the engine call itself is the oracle input `info`. -/
def extract_info (info : RawInfo) : InfoResult :=
  { title := info.title
    duration := info.duration
    filesize := pyOrInt info.filesize info.filesize_approx
    uploader := info.uploader
    thumbnail := info.thumbnail
    url := pyOrStr info.url info.webpage_url }

/-- Decimal digit characters of a natural number, most significant first. -/
def natToDigits (n : Nat) : List Char :=
  if _h : n < 10 then [Char.ofNat (48 + n)]
  else natToDigits (n / 10) ++ [Char.ofNat (48 + n % 10)]
decreasing_by exact Nat.div_lt_self (by omega) (by omega)

/-- Round the exact rational `num / den` to the nearest integer, ties going
to the even neighbour.  This is how a correctly rounded decimal formatting
of an exactly representable binary float behaves; `size / 2**20` is exact in
a Python float for every realistic byte count. -/
def roundHalfEven (num den : Nat) : Nat :=
  if 2 * (num % den) < den then num / den
  else if den < 2 * (num % den) then num / den + 1
  else if num / den % 2 = 0 then num / den else num / den + 1

/-- Python `f"{x:.1f}"` for `x = sizeBytes / 2**20`, the measured size in MB
printed with one decimal place. -/
def formatMb1 (sizeBytes : Nat) : String :=
  ⟨natToDigits (roundHalfEven (10 * sizeBytes) 1048576 / 10) ++
    '.' :: natToDigits (roundHalfEven (10 * sizeBytes) 1048576 % 10)⟩

/-- Output-name resolution of `_download` (lines 122-123): a missing or
empty `filename` (Python falsiness) is replaced by `video_<epoch-millis>`. -/
def resolveFilename (filename : Option String) (nowMs : Nat) : String :=
  match filename with
  | none => "video_" ++ toString nowMs
  | some s => if s = "" then "video_" ++ toString nowMs else s

/-- The extension part of `os.path.splitext`, without its leading dot (the
`lstrip "."` of line 179 is folded in): the characters after the last dot,
empty when there is no dot or only dots stand before the last dot. -/
def extOf (name : String) : String :=
  if (name.data.reverse.takeWhile (fun c => c ≠ '.')).length = name.data.length then ""
  else if (name.data.reverse.drop
      ((name.data.reverse.takeWhile (fun c => c ≠ '.')).length + 1)).all
      (fun c => c == '.') then ""
  else ⟨(name.data.reverse.takeWhile (fun c => c ≠ '.')).reverse⟩

/-- Python `str.upper` (ASCII case folding). -/
def upperStr (s : String) : String := ⟨s.data.map Char.toUpper⟩

/-- Python `str.startswith`, used by the output-file search of line 160. -/
def startswith (s pre : String) : Bool := pre.data.isPrefixOf s.data

/-- What the download endpoint returns on success (lines 181-187).
`size_mb_hundredths` embeds Python `round(file_size_mb, 2)` as an exact
count of hundredths of a MB, rounded half to even. -/
structure DlResult where
  filename : String
  size_mb_hundredths : Nat
  duration : Option Int
  title : Option String
  format : String
deriving DecidableEq

/-- The metadata the engine reports for a finished download, as read on
lines 184-185. -/
structure EngineInfo where
  duration : Option Int
  title : Option String
deriving DecidableEq

/-- Embedding of `_download` (server.py lines 120-187).  The engine call of
line 155 is the oracle argument `engine` (its failure text on error, its
reported metadata on success), and `fs` is the listing of `DOWNLOAD_DIR`
right after that call, in `os.listdir` order, as `(name, size-in-bytes)`
pairs.  The returned list is the directory content after the job. -/
def download (maxFileSizeMb : Nat) (filename : Option String) (nowMs : Nat)
    (fs : List (String × Nat)) (engine : Except String EngineInfo) :
    List (String × Nat) × Except String DlResult :=
  match engine with
  | .error e => (fs, .error e)
  | .ok info =>
    match fs.find? (fun e => startswith e.1 (resolveFilename filename nowMs)) with
    | none => (fs, .error ("Download completed but output file not found"))
    | some (name, size) =>
      if size = 0 then
        (fs.eraseP (fun e => e.1 == name), .error ("Downloaded file is empty"))
      else if maxFileSizeMb * 1048576 < size then
        (fs.eraseP (fun e => e.1 == name),
          .error ("FILE_TOO_LARGE:" ++ formatMb1 size ++ "MB"))
      else
        (fs, .ok { filename := name
                   size_mb_hundredths := roundHalfEven (100 * size) 1048576
                   duration := info.duration
                   title := info.title
                   format := if upperStr (extOf name) = "" then "MP4"
                     else upperStr (extOf name) })

/-- The two process-wide counters of server.py: the admission semaphore
value (line 23) and `active_downloads` (line 24). -/
structure SrvState where
  available : Nat
  active : Int
deriving DecidableEq

/-- An HTTP outcome of the endpoint: a JSON payload or an HTTPException. -/
inductive Resp where
  | ok (r : DlResult)
  | err (status : Nat) (detail : String)
deriving DecidableEq

/-- The wait bound passed to `asyncio.wait_for` around `semaphore.acquire()`
on line 76. -/
def ACQUIRE_TIMEOUT_SECONDS : Nat := 5

/-- Embedding of the `/download` endpoint `download_video` (lines 69-94).
`granted` tells whether `asyncio.wait_for(semaphore.acquire(), timeout=5.0)`
obtained a slot within the wait window; on denial the handler raises 429
before touching any state.  On a grant the semaphore value drops by one and
`active_downloads` rises by one, the blocking job runs on the worker thread,
and the `finally` block restores both counters on every exit path. -/
def download_video (maxDuration maxFileSizeMb : Nat) (st : SrvState) (granted : Bool)
    (filename : Option String) (nowMs : Nat) (fsBefore fsAfterEngine : List (String × Nat))
    (engine : Except String EngineInfo) : SrvState × List (String × Nat) × Resp :=
  if granted then
    let outcome := download maxFileSizeMb filename nowMs fsAfterEngine engine
    match outcome.2 with
    | .ok r => (⟨st.available - 1 + 1, st.active + 1 - 1⟩, outcome.1, Resp.ok r)
    | .error e =>
      (⟨st.available - 1 + 1, st.active + 1 - 1⟩, outcome.1,
        Resp.err 400 (parse_error maxDuration e))
  else
    (st, fsBefore, Resp.err 429 ("SERVER_BUSY:Too many concurrent downloads. Try again later."))

/-- Character 18 of the rule-1 message is the letter o of the word "over",
whatever the configured duration limit is. -/
lemma over_getElem18 (d : Nat) :
    ("DURATION_TOO_LONG:over " ++ toString (d / 60) ++ " minutes").data[18]? = some 'o' := by
  rw [String.data_append, String.data_append]
  rw [List.getElem?_append_left, List.getElem?_append_left]
  · rfl
  · decide
  · rw [List.length_append]
    have h23 : ("DURATION_TOO_LONG:over ").data.length = 23 := by decide
    omega

/-- The lowercased rule-1 message itself contains the substring "duration". -/
lemma over_lower_duration (d : Nat) :
    "duration".data <:+:
      (lowerStr ("DURATION_TOO_LONG:over " ++ toString (d / 60) ++ " minutes")).data := by
  apply List.IsPrefix.isInfix
  show "duration".data <+: List.map Char.toLower (_ : String).data
  rw [String.data_append, String.data_append, List.map_append, List.map_append]
  have h0 : "duration".data <+:
      List.map Char.toLower ("DURATION_TOO_LONG:over ").data := by decide
  exact (h0.trans (List.prefix_append _ _)).trans (List.prefix_append _ _)

/-- C3 counterexample: on raw text that mentions "duration" but does NOT
contain "does not pass filter", the classifier still returns the
rule-1 message, so rule 1 does not fire "exactly when" both substrings are
present. -/
theorem claim_C3_counterexample :
    parse_error 600 ("video duration 900 seconds") = "DURATION_TOO_LONG:over 10 minutes" ∧
    ¬ ("does not pass filter".data <:+: (lowerStr ("video duration 900 seconds")).data) :=
  ⟨by decide, by decide⟩

/-- No string whose character at index 18 differs from the letter o can be
the rule-1 message. -/
lemma ne_over_of_getElem18 {s : String} (d : Nat) (hs : s.data[18]? ≠ some 'o') :
    s ≠ "DURATION_TOO_LONG:over " ++ toString (d / 60) ++ " minutes" := by
  intro h
  apply hs
  rw [h]
  exact over_getElem18 d

set_option maxHeartbeats 1000000 in
/-- C3 (amended): the classifier returns the
"DURATION_TOO_LONG:over <MAX_DURATION_SECONDS / 60> minutes" message exactly
when the lowercased text contains "duration" (the filter phrase is
irrelevant, because the first literal of the Python condition is truthy),
and returns "DURATION_TOO_LONG:exceeds limit" exactly when the lowercased
text contains "does not pass filter" but not "duration". -/
theorem claim_C3_amended (d : Nat) (t : String) :
    (parse_error d t = "DURATION_TOO_LONG:over " ++ toString (d / 60) ++ " minutes" ↔
      "duration".data <:+: (lowerStr t).data) ∧
    (parse_error d t = "DURATION_TOO_LONG:exceeds limit" ↔
      ("does not pass filter".data <:+: (lowerStr t).data ∧
        ¬ "duration".data <:+: (lowerStr t).data)) := by
  constructor
  · unfold parse_error
    split_ifs with h1 h2 h3 h4 h5 h6 h7 h8 h9 h10
    · exact iff_of_true rfl h1
    · exact iff_of_false (ne_over_of_getElem18 d (by decide)) h1
    · exact iff_of_false (ne_over_of_getElem18 d (by decide)) h1
    · exact iff_of_false (ne_over_of_getElem18 d (by decide)) h1
    · exact iff_of_false (ne_over_of_getElem18 d (by decide)) h1
    · exact iff_of_false (ne_over_of_getElem18 d (by decide)) h1
    · exact iff_of_false (ne_over_of_getElem18 d (by decide)) h1
    · exact iff_of_false (ne_over_of_getElem18 d (by decide)) h1
    · exact iff_of_false (ne_over_of_getElem18 d (by decide)) h1
    · exact iff_of_false (ne_over_of_getElem18 d (by decide)) h1
    · exact iff_of_false (fun h => h1 (by rw [h]; exact over_lower_duration d)) h1
  · unfold parse_error
    split_ifs with h1 h2 h3 h4 h5 h6 h7 h8 h9 h10
    · exact iff_of_false (fun h => ne_over_of_getElem18 d (by decide) h.symm)
        (fun hc => hc.2 h1)
    · exact iff_of_true rfl ⟨h2, h1⟩
    · exact iff_of_false (by decide) (fun hc => h2 hc.1)
    · exact iff_of_false (by decide) (fun hc => h2 hc.1)
    · exact iff_of_false (by decide) (fun hc => h2 hc.1)
    · exact iff_of_false (by decide) (fun hc => h2 hc.1)
    · exact iff_of_false (by decide) (fun hc => h2 hc.1)
    · exact iff_of_false (by decide) (fun hc => h2 hc.1)
    · exact iff_of_false (by decide) (fun hc => h2 hc.1)
    · exact iff_of_false (by decide) (fun hc => h2 hc.1)
    · exact iff_of_false (fun h => h1 (by rw [h]; decide)) (fun hc => h2 hc.1)

/-- C4: rule 1 (the "over N minutes" duration message) fires whenever the
lowercased raw text contains "duration", even without
"does not pass filter"; in particular it fires when both substrings are
present, and rule 2 ("exceeds limit") still fires when the text contains
"does not pass filter" without "duration". -/
theorem claim_C4 (d : Nat) (t : String) :
    ("duration".data <:+: (lowerStr t).data →
      parse_error d t = "DURATION_TOO_LONG:over " ++ toString (d / 60) ++ " minutes") ∧
    ("does not pass filter".data <:+: (lowerStr t).data →
      "duration".data <:+: (lowerStr t).data →
      parse_error d t = "DURATION_TOO_LONG:over " ++ toString (d / 60) ++ " minutes") ∧
    ("does not pass filter".data <:+: (lowerStr t).data →
      ¬ "duration".data <:+: (lowerStr t).data →
      parse_error d t = "DURATION_TOO_LONG:exceeds limit") := by
  refine ⟨fun h => ?_, fun _ h => ?_, fun hf hd => ?_⟩
  · unfold parse_error; rw [if_pos h]
  · unfold parse_error; rw [if_pos h]
  · unfold parse_error; rw [if_neg hd, if_pos hf]

/-- Witness for C4 at concrete raw texts. -/
theorem claim_C4_witness :
    ("duration".data <:+: (lowerStr ("Video duration 900 rejected")).data ∧
      parse_error 600 ("Video duration 900 rejected") =
        "DURATION_TOO_LONG:over " ++ toString (600 / 60) ++ " minutes") ∧
    (("does not pass filter".data <:+: (lowerStr ("clip does not pass filter duration")).data ∧
        "duration".data <:+: (lowerStr ("clip does not pass filter duration")).data) ∧
      parse_error 600 ("clip does not pass filter duration") =
        "DURATION_TOO_LONG:over " ++ toString (600 / 60) ++ " minutes") ∧
    (("does not pass filter".data <:+: (lowerStr ("clip does not pass filter")).data ∧
        ¬ "duration".data <:+: (lowerStr ("clip does not pass filter")).data) ∧
      parse_error 600 ("clip does not pass filter") = "DURATION_TOO_LONG:exceeds limit") :=
  ⟨⟨by decide, (claim_C4 600 _).1 (by decide)⟩,
    ⟨⟨by decide, by decide⟩, (claim_C4 600 _).2.1 (by decide) (by decide)⟩,
    ⟨⟨by decide, by decide⟩, (claim_C4 600 _).2.2 (by decide) (by decide)⟩⟩

/-- C8 counterexample: a raw text that contains "Private video" but also the
word "duration" is classified by rule 1, not by the private/login rule, so
the private/login output does not hold "regardless of the surrounding
text". -/
theorem claim_C8_counterexample :
    "Private video".data <:+: ("Private video of unknown duration").data ∧
    parse_error 600 ("Private video of unknown duration") ≠
      "This video is private or requires login" ∧
    parse_error 600 ("Private video of unknown duration") =
      "DURATION_TOO_LONG:over 10 minutes" :=
  ⟨by decide, by decide, by decide⟩

/-- C8 (amended): the classifier is a pure function of the raw text, and for
every raw text that contains "private video" case-insensitively and whose
lowercased form contains neither "duration" nor "does not pass filter", the
output is the private/login-required message regardless of the remaining
surrounding text. -/
theorem claim_C8_amended (d : Nat) (t : String)
    (hp : "private video".data <:+: (lowerStr t).data)
    (hd : ¬ "duration".data <:+: (lowerStr t).data)
    (hf : ¬ "does not pass filter".data <:+: (lowerStr t).data) :
    parse_error d t = "This video is private or requires login" := by
  unfold parse_error
  rw [if_neg hd, if_neg hf, if_pos (Or.inl hp)]

/-- Witness for the amended C8 at a concrete raw text (of different letter
case than the rule). -/
theorem claim_C8_witness :
    ("private video".data <:+: (lowerStr ("PRIVATE VIDEO: please sign in")).data ∧
      ¬ "duration".data <:+: (lowerStr ("PRIVATE VIDEO: please sign in")).data ∧
      ¬ "does not pass filter".data <:+: (lowerStr ("PRIVATE VIDEO: please sign in")).data) ∧
    parse_error 600 ("PRIVATE VIDEO: please sign in") =
      "This video is private or requires login" :=
  ⟨⟨by decide, by decide, by decide⟩,
    claim_C8_amended 600 _ (by decide) (by decide) (by decide)⟩

/-- C9: in the info lookup result, field fallback follows Python truthiness,
not key absence: the reported filesize is the exact engine filesize when it
is present and non-zero, and the approximate filesize otherwise (in
particular when the exact value is present but zero); the url falls back
from the engine url to the webpage url when the former is absent or empty. -/
theorem claim_C9 (info : RawInfo) :
    (info.filesize ≠ none → info.filesize ≠ some 0 →
      (extract_info info).filesize = info.filesize) ∧
    (info.filesize = none ∨ info.filesize = some 0 →
      (extract_info info).filesize = info.filesize_approx) ∧
    (info.filesize = some 0 → (extract_info info).filesize = info.filesize_approx) ∧
    (info.url ≠ none → info.url ≠ some "" → (extract_info info).url = info.url) ∧
    (info.url = none ∨ info.url = some "" → (extract_info info).url = info.webpage_url) := by
  refine ⟨?_, ?_, ?_, ?_, ?_⟩
  · intro hn hz
    cases h : info.filesize with
    | none => exact absurd h hn
    | some n =>
      have hne : n ≠ 0 := fun h0 => hz (by rw [h, h0])
      simp [extract_info, pyOrInt, truthyInt, h, hne]
  · intro hc
    cases hc with
    | inl h => simp [extract_info, pyOrInt, truthyInt, h]
    | inr h => simp [extract_info, pyOrInt, truthyInt, h]
  · intro h
    simp [extract_info, pyOrInt, truthyInt, h]
  · intro hn hz
    cases h : info.url with
    | none => exact absurd h hn
    | some s =>
      have hne : s ≠ "" := fun h0 => hz (by rw [h, h0])
      simp [extract_info, pyOrStr, truthyStr, h, hne]
  · intro hc
    cases hc with
    | inl h => simp [extract_info, pyOrStr, truthyStr, h]
    | inr h => simp [extract_info, pyOrStr, truthyStr, h]

/-- Witness for C9 at two concrete engine dictionaries: one with an exact
non-zero filesize and non-empty url, one with a zero exact filesize and an
empty url. -/
theorem claim_C9_witness :
    ((extract_info ⟨none, none, some 5, some 7, none, none, some ("u"), some ("w")⟩).filesize =
        some 5 ∧
      (extract_info ⟨none, none, some 5, some 7, none, none, some ("u"), some ("w")⟩).url =
        some ("u")) ∧
    ((extract_info ⟨none, none, some 0, some 7, none, none, some (""), some ("w")⟩).filesize =
        some 7 ∧
      (extract_info ⟨none, none, some 0, some 7, none, none, some (""), some ("w")⟩).url =
        some ("w")) :=
  ⟨⟨(claim_C9 _).1 (by decide) (by decide), (claim_C9 _).2.2.2.1 (by decide) (by decide)⟩,
    ⟨(claim_C9 _).2.2.1 rfl, (claim_C9 _).2.2.2.2 (Or.inr rfl)⟩⟩

/-- A decimal digit character. -/
lemma digitChar_mem (m : Nat) (hm : m < 10) :
    Char.ofNat (48 + m) ∈ ("0123456789").data := by
  interval_cases m <;> decide

/-- `natToDigits` produces only decimal digit characters. -/
lemma natToDigits_mem : ∀ (n : Nat), ∀ c ∈ natToDigits n, c ∈ ("0123456789").data := by
  intro n
  induction n using Nat.strong_induction_on with
  | _ n ih =>
    intro c hc
    rw [natToDigits] at hc
    split at hc
    · rename_i h
      simp only [List.mem_singleton] at hc
      subst hc
      exact digitChar_mem n h
    · rename_i h
      rcases List.mem_append.mp hc with h1 | h1
      · exact ih (n / 10) (Nat.div_lt_self (by omega) (by omega)) c h1
      · simp only [List.mem_singleton] at h1
        subst h1
        exact digitChar_mem (n % 10) (Nat.mod_lt _ (by omega))

/-- `formatMb1` produces only digits and the decimal dot. -/
lemma formatMb1_mem (sz : Nat) : ∀ c ∈ (formatMb1 sz).data, c ∈ ("0123456789.").data := by
  intro c hc
  have hd : ∀ c₀ ∈ ("0123456789").data, c₀ ∈ ("0123456789.").data := by
    intro c₀ h₀
    fin_cases h₀ <;> decide
  rcases List.mem_append.mp hc with h | h
  · exact hd c (natToDigits_mem _ c h)
  · rcases List.mem_cons.mp h with rfl | h
    · decide
    · exact hd c (natToDigits_mem _ c h)

/-- ASCII lower-casing fixes digits and the dot. -/
lemma toLower_fix (c : Char) (h : c ∈ ("0123456789.").data) : Char.toLower c = c := by
  fin_cases h <;> decide

/-- Lower-cased `formatMb1` output still consists of digits and the dot. -/
lemma formatMb1_lower_mem (sz : Nat) :
    ∀ c ∈ (formatMb1 sz).data.map Char.toLower, c ∈ ("0123456789.").data := by
  intro c hc
  obtain ⟨c₀, hc₀, rfl⟩ := List.mem_map.mp hc
  have h₀ := formatMb1_mem sz c₀ hc₀
  rw [toLower_fix c₀ h₀]
  exact h₀

/-- A pattern that contains a character absent from a list is not an infix
of that list. -/
lemma not_infix_of_missing {x : Char} {p L : List Char} (hx : x ∈ p) (hL : x ∉ L) :
    ¬ p <:+: L := fun h => hL (h.subset hx)

/-- A pattern whose head differs is not a prefix. -/
lemma not_prefix_of_head_ne {a c : Char} {p l : List Char} (h : a ≠ c) :
    ¬ (a :: p <+: c :: l) := by
  intro hp
  obtain ⟨t, ht⟩ := hp
  rw [List.cons_append] at ht
  injection ht with h1 _
  exact h h1

/-- A pattern whose second character differs is not a prefix. -/
lemma not_prefix_of_second_ne {a b c e : Char} {p l : List Char} (h : b ≠ e) :
    ¬ (a :: b :: p <+: c :: e :: l) := by
  intro hp
  obtain ⟨t, ht⟩ := hp
  rw [List.cons_append, List.cons_append] at ht
  injection ht with _ ht2
  injection ht2 with h2 _
  exact h h2

/-- The lowercased FILE_TOO_LARGE message contains no occurrence of "age":
its only letter a is followed by r, and the size part holds only digits,
the dot, m and b. -/
lemma age_not_infix {X : List Char} (hX : ∀ c ∈ X, c ∈ ("0123456789.mb").data) :
    ¬ ("age".data <:+: ("file_too_large:").data ++ X) := by
  have hA : ("file_too_large:").data ++ X =
      'f' :: 'i' :: 'l' :: 'e' :: '_' :: 't' :: 'o' :: 'o' :: '_' :: 'l' :: 'a' :: 'r' ::
        'g' :: 'e' :: ':' :: X := rfl
  rw [hA]
  intro h
  rcases List.infix_cons_iff.mp h with hp | h
  · exact not_prefix_of_head_ne (by decide) hp
  rcases List.infix_cons_iff.mp h with hp | h
  · exact not_prefix_of_head_ne (by decide) hp
  rcases List.infix_cons_iff.mp h with hp | h
  · exact not_prefix_of_head_ne (by decide) hp
  rcases List.infix_cons_iff.mp h with hp | h
  · exact not_prefix_of_head_ne (by decide) hp
  rcases List.infix_cons_iff.mp h with hp | h
  · exact not_prefix_of_head_ne (by decide) hp
  rcases List.infix_cons_iff.mp h with hp | h
  · exact not_prefix_of_head_ne (by decide) hp
  rcases List.infix_cons_iff.mp h with hp | h
  · exact not_prefix_of_head_ne (by decide) hp
  rcases List.infix_cons_iff.mp h with hp | h
  · exact not_prefix_of_head_ne (by decide) hp
  rcases List.infix_cons_iff.mp h with hp | h
  · exact not_prefix_of_head_ne (by decide) hp
  rcases List.infix_cons_iff.mp h with hp | h
  · exact not_prefix_of_head_ne (by decide) hp
  rcases List.infix_cons_iff.mp h with hp | h
  · exact not_prefix_of_second_ne (by decide) hp
  rcases List.infix_cons_iff.mp h with hp | h
  · exact not_prefix_of_head_ne (by decide) hp
  rcases List.infix_cons_iff.mp h with hp | h
  · exact not_prefix_of_head_ne (by decide) hp
  rcases List.infix_cons_iff.mp h with hp | h
  · exact not_prefix_of_head_ne (by decide) hp
  rcases List.infix_cons_iff.mp h with hp | h
  · exact not_prefix_of_head_ne (by decide) hp
  have ha : 'a' ∈ X := h.subset (by decide)
  exact absurd (hX 'a' ha) (by decide)

/-- When none of the ten classification conditions holds, the raw text
passes through the classifier unchanged. -/
lemma parse_error_eq_self (d : Nat) (t : String)
    (h1 : ¬ ("duration".data <:+: (lowerStr t).data))
    (h2 : ¬ ("does not pass filter".data <:+: (lowerStr t).data))
    (h3 : ¬ ("private video".data <:+: (lowerStr t).data ∨
      "sign in".data <:+: (lowerStr t).data))
    (h4 : ¬ ("copyright".data <:+: (lowerStr t).data ∨
      "blocked".data <:+: (lowerStr t).data))
    (h5 : ¬ ("age".data <:+: (lowerStr t).data ∨
      "confirm your age".data <:+: (lowerStr t).data))
    (h6 : ¬ ("unavailable".data <:+: (lowerStr t).data ∨
      "not available".data <:+: (lowerStr t).data))
    (h7 : ¬ ("live".data <:+: (lowerStr t).data))
    (h8 : ¬ ("premieres".data <:+: (lowerStr t).data ∨
      "scheduled".data <:+: (lowerStr t).data))
    (h9 : ¬ ("members only".data <:+: (lowerStr t).data))
    (h10 : ¬ ("unsupported url".data <:+: (lowerStr t).data)) :
    parse_error d t = t := by
  unfold parse_error
  rw [if_neg h1, if_neg h2, if_neg h3, if_neg h4, if_neg h5, if_neg h6, if_neg h7,
    if_neg h8, if_neg h9, if_neg h10]

/-- The lowercased data of the FILE_TOO_LARGE message, in split form. -/
lemma lower_large_msg (sz : Nat) :
    (lowerStr ("FILE_TOO_LARGE:" ++ formatMb1 sz ++ "MB")).data =
      (("file_too_large:").data ++ (formatMb1 sz).data.map Char.toLower) ++ ("mb").data := by
  show List.map Char.toLower (_ : String).data = _
  rw [String.data_append, String.data_append, List.map_append, List.map_append]
  have e1 : List.map Char.toLower ("FILE_TOO_LARGE:").data = ("file_too_large:").data := by
    decide
  have e2 : List.map Char.toLower ("MB").data = ("mb").data := by decide
  rw [e1, e2]

/-- The FILE_TOO_LARGE detail raised on line 177 matches none of the
classifier rules, so `_parse_error` reports it to the caller verbatim. -/
lemma parse_error_large (d sz : Nat) :
    parse_error d ("FILE_TOO_LARGE:" ++ formatMb1 sz ++ "MB") =
      "FILE_TOO_LARGE:" ++ formatMb1 sz ++ "MB" := by
  have hFl := formatMb1_lower_mem sz
  have hmiss : ∀ x : Char, x ∉ ("file_too_large:").data → x ∉ ("0123456789.").data →
      x ∉ ("mb").data →
      x ∉ (("file_too_large:").data ++ (formatMb1 sz).data.map Char.toLower) ++ ("mb").data := by
    intro x hx1 hx2 hx3 hmem
    rcases List.mem_append.mp hmem with h | h
    · rcases List.mem_append.mp h with h | h
      · exact hx1 h
      · exact hx2 (hFl x h)
    · exact hx3 h
  have hX : ∀ c ∈ (formatMb1 sz).data.map Char.toLower ++ ("mb").data,
      c ∈ ("0123456789.mb").data := by
    intro c hc
    rcases List.mem_append.mp hc with h | h
    · have h₀ := hFl c h
      fin_cases h₀ <;> decide
    · fin_cases h <;> decide
  apply parse_error_eq_self
  · rw [lower_large_msg]
    exact not_infix_of_missing (x := 'u') (by decide) (hmiss _ (by decide) (by decide) (by decide))
  · rw [lower_large_msg]
    exact not_infix_of_missing (x := ' ') (by decide) (hmiss _ (by decide) (by decide) (by decide))
  · rw [lower_large_msg]
    rintro (h | h)
    · exact not_infix_of_missing (x := ' ') (by decide)
        (hmiss _ (by decide) (by decide) (by decide)) h
    · exact not_infix_of_missing (x := ' ') (by decide)
        (hmiss _ (by decide) (by decide) (by decide)) h
  · rw [lower_large_msg]
    rintro (h | h)
    · exact not_infix_of_missing (x := 'c') (by decide)
        (hmiss _ (by decide) (by decide) (by decide)) h
    · exact not_infix_of_missing (x := 'c') (by decide)
        (hmiss _ (by decide) (by decide) (by decide)) h
  · rw [lower_large_msg]
    rintro (h | h)
    · rw [List.append_assoc] at h
      exact age_not_infix hX h
    · exact not_infix_of_missing (x := ' ') (by decide)
        (hmiss _ (by decide) (by decide) (by decide)) h
  · rw [lower_large_msg]
    rintro (h | h)
    · exact not_infix_of_missing (x := 'u') (by decide)
        (hmiss _ (by decide) (by decide) (by decide)) h
    · exact not_infix_of_missing (x := ' ') (by decide)
        (hmiss _ (by decide) (by decide) (by decide)) h
  · rw [lower_large_msg]
    exact not_infix_of_missing (x := 'v') (by decide) (hmiss _ (by decide) (by decide) (by decide))
  · rw [lower_large_msg]
    rintro (h | h)
    · exact not_infix_of_missing (x := 'p') (by decide)
        (hmiss _ (by decide) (by decide) (by decide)) h
    · exact not_infix_of_missing (x := 's') (by decide)
        (hmiss _ (by decide) (by decide) (by decide)) h
  · rw [lower_large_msg]
    exact not_infix_of_missing (x := ' ') (by decide) (hmiss _ (by decide) (by decide) (by decide))
  · rw [lower_large_msg]
    exact not_infix_of_missing (x := ' ') (by decide) (hmiss _ (by decide) (by decide) (by decide))

/-- With unique names, everything left after `os.unlink` is a surviving
entry with a different name. -/
lemma mem_eraseP_ne : ∀ (fs : List (String × Nat)) (nm : String),
    ((fs.map Prod.fst).Nodup) →
    ∀ e ∈ fs.eraseP (fun x => x.1 == nm), e ∈ fs ∧ e.1 ≠ nm := by
  intro fs nm
  induction fs with
  | nil =>
    intro _ e he
    simp [List.eraseP] at he
  | cons x rest ih =>
    intro hnd e he
    have hnd' : ((rest.map Prod.fst).Nodup) := (List.nodup_cons.mp hnd).2
    by_cases hx : x.1 = nm
    · rw [List.eraseP_cons_of_pos (by simp [hx])] at he
      refine ⟨List.mem_cons_of_mem _ he, ?_⟩
      intro henm
      have hxnot : x.1 ∉ rest.map Prod.fst := (List.nodup_cons.mp hnd).1
      have hemem : e.1 ∈ rest.map Prod.fst := List.mem_map_of_mem Prod.fst he
      rw [henm, ← hx] at hemem
      exact hxnot hemem
    · rw [List.eraseP_cons_of_neg (by simp [hx])] at he
      rcases List.mem_cons.mp he with rfl | hrest
      · exact ⟨List.mem_cons_self _ _, hx⟩
      · obtain ⟨h1, h2⟩ := ih hnd' e hrest
        exact ⟨List.mem_cons_of_mem _ h1, h2⟩

/-- `os.unlink` of one file leaves every differently named entry in place. -/
lemma mem_eraseP_of_ne : ∀ (fs : List (String × Nat)) (nm : String),
    ∀ e ∈ fs, e.1 ≠ nm → e ∈ fs.eraseP (fun x => x.1 == nm) := by
  intro fs nm
  induction fs with
  | nil =>
    intro e he
    simp at he
  | cons x rest ih =>
    intro e he hne
    by_cases hx : x.1 = nm
    · rw [List.eraseP_cons_of_pos (by simp [hx])]
      rcases List.mem_cons.mp he with rfl | h
      · exact absurd hx hne
      · exact h
    · rw [List.eraseP_cons_of_neg (by simp [hx])]
      rcases List.mem_cons.mp he with rfl | h
      · exact List.mem_cons_self _ _
      · exact List.mem_cons_of_mem _ (ih e h hne)

/-- C5: when the located output file measures strictly more than
`MAX_FILE_SIZE_MB` (in MB over the exact byte count), the endpoint deletes
exactly that file from the directory and answers with status 400 and the
detail `FILE_TOO_LARGE:<size>MB`, where the size is the measured value
printed with one decimal place; the classifier passes that detail through
unchanged. -/
theorem claim_C5 (maxDuration maxFileSizeMb : Nat) (st : SrvState)
    (filename : Option String) (nowMs : Nat) (fsBefore fs : List (String × Nat))
    (info : EngineInfo) (name : String) (size : Nat)
    (hfind : fs.find? (fun e => startswith e.1 (resolveFilename filename nowMs)) =
      some (name, size))
    (hnodup : ((fs.map Prod.fst).Nodup))
    (hsize : maxFileSizeMb * 1048576 < size) :
    download_video maxDuration maxFileSizeMb st true filename nowMs fsBefore fs
        (Except.ok info) =
      (⟨st.available - 1 + 1, st.active + 1 - 1⟩,
        fs.eraseP (fun x => x.1 == name),
        Resp.err 400 ("FILE_TOO_LARGE:" ++ formatMb1 size ++ "MB")) ∧
    (name, size) ∉ fs.eraseP (fun x => x.1 == name) ∧
    (∀ e ∈ fs, e.1 ≠ name → e ∈ fs.eraseP (fun x => x.1 == name)) := by
  have hz : ¬ (size = 0) := by omega
  refine ⟨?_, ?_, mem_eraseP_of_ne fs name⟩
  · have hdl : download maxFileSizeMb filename nowMs fs (Except.ok info) =
        (fs.eraseP (fun x => x.1 == name),
          Except.error ("FILE_TOO_LARGE:" ++ formatMb1 size ++ "MB")) := by
      simp only [download, hfind]
      rw [if_neg hz, if_pos hsize]
    simp only [download_video, hdl]
    rw [if_pos trivial, parse_error_large]
  · intro hmem
    exact (mem_eraseP_ne fs name hnodup _ hmem).2 rfl

/-- Witness for C5: a directory with one 104857601-byte file (one byte over
the 100 MB limit). -/
theorem claim_C5_witness :
    (List.find? (fun e => startswith e.1 (resolveFilename (some ("a")) 0))
        [(("a.mp4" : String), (104857601 : Nat))] = some ("a.mp4", 104857601) ∧
      (([(("a.mp4" : String), (104857601 : Nat))].map Prod.fst).Nodup) ∧
      100 * 1048576 < 104857601) ∧
    (download_video 600 100 ⟨5, 0⟩ true (some ("a")) 0 []
        [(("a.mp4" : String), (104857601 : Nat))] (Except.ok ⟨none, none⟩) =
      (⟨5 - 1 + 1, 0 + 1 - 1⟩,
        [(("a.mp4" : String), (104857601 : Nat))].eraseP (fun x => x.1 == "a.mp4"),
        Resp.err 400 ("FILE_TOO_LARGE:" ++ formatMb1 104857601 ++ "MB")) ∧
      ("a.mp4", 104857601) ∉
        [(("a.mp4" : String), (104857601 : Nat))].eraseP (fun x => x.1 == "a.mp4")) :=
  ⟨⟨by decide, by decide, by decide⟩,
    ⟨(claim_C5 600 100 ⟨5, 0⟩ (some ("a")) 0 [] [(("a.mp4" : String), (104857601 : Nat))]
        ⟨none, none⟩ ("a.mp4") 104857601 (by decide) (by decide) (by decide)).1,
      (claim_C5 600 100 ⟨5, 0⟩ (some ("a")) 0 [] [(("a.mp4" : String), (104857601 : Nat))]
        ⟨none, none⟩ ("a.mp4") 104857601 (by decide) (by decide) (by decide)).2.1⟩⟩

/-- C6: a located output file of zero bytes is removed from the directory
and the job fails with the EMPTY_FILE condition, raised as the message
"Downloaded file is empty" (which no classifier rule rewrites) and surfaced
to the caller with status 400. -/
theorem claim_C6 (maxDuration maxFileSizeMb : Nat) (st : SrvState)
    (filename : Option String) (nowMs : Nat) (fsBefore fs : List (String × Nat))
    (info : EngineInfo) (name : String)
    (hfind : fs.find? (fun e => startswith e.1 (resolveFilename filename nowMs)) =
      some (name, 0))
    (hnodup : ((fs.map Prod.fst).Nodup)) :
    download_video maxDuration maxFileSizeMb st true filename nowMs fsBefore fs
        (Except.ok info) =
      (⟨st.available - 1 + 1, st.active + 1 - 1⟩,
        fs.eraseP (fun x => x.1 == name),
        Resp.err 400 ("Downloaded file is empty")) ∧
    (name, 0) ∉ fs.eraseP (fun x => x.1 == name) ∧
    (∀ e ∈ fs, e.1 ≠ name → e ∈ fs.eraseP (fun x => x.1 == name)) := by
  refine ⟨?_, ?_, mem_eraseP_of_ne fs name⟩
  · have hdl : download maxFileSizeMb filename nowMs fs (Except.ok info) =
        (fs.eraseP (fun x => x.1 == name), Except.error ("Downloaded file is empty")) := by
      simp only [download, hfind]
      rw [if_pos trivial]
    simp only [download_video, hdl]
    rw [if_pos trivial, parse_error_eq_self maxDuration ("Downloaded file is empty") (by decide) (by decide)
      (by decide) (by decide) (by decide) (by decide) (by decide) (by decide) (by decide)
      (by decide)]
  · intro hmem
    exact (mem_eraseP_ne fs name hnodup _ hmem).2 rfl

/-- Witness for C6: a directory with one zero-byte file. -/
theorem claim_C6_witness :
    (List.find? (fun e => startswith e.1 (resolveFilename (some ("b")) 0))
        [(("b.mp4" : String), (0 : Nat))] = some ("b.mp4", 0) ∧
      (([(("b.mp4" : String), (0 : Nat))].map Prod.fst).Nodup)) ∧
    (download_video 600 100 ⟨5, 0⟩ true (some ("b")) 0 []
        [(("b.mp4" : String), (0 : Nat))] (Except.ok ⟨none, none⟩) =
      (⟨5 - 1 + 1, 0 + 1 - 1⟩,
        [(("b.mp4" : String), (0 : Nat))].eraseP (fun x => x.1 == "b.mp4"),
        Resp.err 400 ("Downloaded file is empty")) ∧
      ("b.mp4", 0) ∉ [(("b.mp4" : String), (0 : Nat))].eraseP (fun x => x.1 == "b.mp4")) :=
  ⟨⟨by decide, by decide⟩,
    ⟨(claim_C6 600 100 ⟨5, 0⟩ (some ("b")) 0 [] [(("b.mp4" : String), (0 : Nat))]
        ⟨none, none⟩ ("b.mp4") (by decide) (by decide)).1,
      (claim_C6 600 100 ⟨5, 0⟩ (some ("b")) 0 [] [(("b.mp4" : String), (0 : Nat))]
        ⟨none, none⟩ ("b.mp4") (by decide) (by decide)).2.1⟩⟩

/-- C2: the admission wait is bounded by the 5-second constant, and a
request that obtains no slot within the window is answered with status 429,
a detail beginning with "SERVER_BUSY:", an unchanged directory and unchanged
counters; the job oracle inputs are never consulted, so the job does not
run. -/
theorem claim_C2 :
    ACQUIRE_TIMEOUT_SECONDS = 5 ∧
    ∀ (maxDuration maxFileSizeMb : Nat) (st : SrvState) (filename : Option String)
      (nowMs : Nat) (fsBefore fsAfterEngine : List (String × Nat))
      (engine : Except String EngineInfo),
      download_video maxDuration maxFileSizeMb st false filename nowMs fsBefore
          fsAfterEngine engine =
        (st, fsBefore,
          Resp.err 429 ("SERVER_BUSY:Too many concurrent downloads. Try again later.")) ∧
        startswith ("SERVER_BUSY:Too many concurrent downloads. Try again later.")
          ("SERVER_BUSY:") = true :=
  ⟨rfl, fun _ _ _ _ _ _ _ _ => ⟨rfl, by decide⟩⟩

/-- C10: the produced file is located as the first directory entry whose
name starts with the resolved base name; every successful download returns
a filename with that prefix, but which entry is taken is decided by listing
order alone: the same directory content listed in two different orders
makes the endpoint measure and return two different files ("clip10.mp4"
shadows the engine-written "clip1.mp4" when it is listed first). -/
theorem claim_C10 :
    (∀ (fs : List (String × Nat)) (base : String) (entry : String × Nat),
      fs.find? (fun e => startswith e.1 base) = some entry →
      startswith entry.1 base = true) ∧
    (∀ (maxFileSizeMb : Nat) (filename : Option String) (nowMs : Nat)
      (fs : List (String × Nat)) (engine : Except String EngineInfo)
      (fs' : List (String × Nat)) (r : DlResult),
      download maxFileSizeMb filename nowMs fs engine = (fs', Except.ok r) →
      startswith r.filename (resolveFilename filename nowMs) = true) ∧
    ((download 100 (some ("clip1")) 0 [(("clip10.mp4" : String), (5 : Nat)), ("clip1.mp4", 7)]
        (Except.ok ⟨none, none⟩)).2 =
      Except.ok ⟨"clip10.mp4", 0, none, none, "MP4"⟩ ∧
     (download 100 (some ("clip1")) 0 [(("clip1.mp4" : String), (7 : Nat)), ("clip10.mp4", 5)]
        (Except.ok ⟨none, none⟩)).2 =
      Except.ok ⟨"clip1.mp4", 0, none, none, "MP4"⟩) := by
  refine ⟨?_, ?_, rfl, rfl⟩
  · intro fs base entry h
    simpa using List.find?_some h
  · intro maxFileSizeMb filename nowMs fs engine fs' r h
    cases engine with
    | error e => simp [download] at h
    | ok info =>
      rcases hf : fs.find? (fun e => startswith e.1 (resolveFilename filename nowMs)) with
        _ | ⟨name, size⟩
      · simp [download, hf] at h
      · by_cases hz : size = 0
        · simp [download, hf, hz] at h
        · by_cases hl : maxFileSizeMb * 1048576 < size
          · simp [download, hf, hz, hl] at h
          · simp [download, hf, hz, hl] at h
            obtain ⟨-, h2⟩ := h
            subst h2
            simpa using List.find?_some hf

/-- Witness for C10 at the concrete two-entry directory listing. -/
theorem claim_C10_witness :
    (List.find? (fun e => startswith e.1 ("clip1"))
        [(("clip10.mp4" : String), (5 : Nat)), ("clip1.mp4", 7)] = some ("clip10.mp4", 5) ∧
      startswith ("clip10.mp4") ("clip1") = true) ∧
    (download 100 (some ("clip1")) 0 [(("clip10.mp4" : String), (5 : Nat)), ("clip1.mp4", 7)]
        (Except.ok ⟨none, none⟩) =
        ([(("clip10.mp4" : String), (5 : Nat)), ("clip1.mp4", 7)],
          Except.ok ⟨"clip10.mp4", 0, none, none, "MP4"⟩) ∧
      startswith ("clip10.mp4") (resolveFilename (some ("clip1")) 0) = true) :=
  ⟨⟨by decide, claim_C10.1 [(("clip10.mp4" : String), (5 : Nat)), ("clip1.mp4", 7)]
      ("clip1") ("clip10.mp4", 5) (by decide)⟩,
    ⟨rfl, claim_C10.2.1 100 (some ("clip1")) 0
      [(("clip10.mp4" : String), (5 : Nat)), ("clip1.mp4", 7)] (Except.ok ⟨none, none⟩)
      [(("clip10.mp4" : String), (5 : Nat)), ("clip1.mp4", 7)]
      ⟨"clip10.mp4", 0, none, none, "MP4"⟩ rfl⟩⟩

/-- A directory entry as seen by one sweep cycle of `_cleanup_old_files`
(lines 237-247): its name, whether `os.path.isfile` holds, its modification
time, and whether touching it (`os.path.getmtime` / `os.unlink`) raises the
per-file error that the `try/except` of lines 242-247 swallows. -/
structure SweepEntry where
  name : String
  isFile : Bool
  mtime : Int
  raisesErr : Bool
deriving DecidableEq

/-- Embedding of one sweep cycle of `_cleanup_old_files`: every regular file
whose age exceeds 600 seconds is unlinked, a per-file exception leaves that
entry in place and moves on to the next one. -/
def cleanup_old_files (now : Int) : List SweepEntry → List SweepEntry
  | [] => []
  | e :: rest =>
    if e.isFile then
      if e.raisesErr then e :: cleanup_old_files now rest
      else if 600 < now - e.mtime then cleanup_old_files now rest
      else e :: cleanup_old_files now rest
    else e :: cleanup_old_files now rest

/-- Embedding of `_cleanup_loop` (lines 227-234): the cycles run in order;
a cycle whose flag marks a cycle-level exception (for example a failing
directory listing) leaves the directory as it was, is swallowed by the
`try/except` of the loop, and the following cycles still run. -/
def cleanup_loop_cycles (fs0 : List SweepEntry) (cycles : List (Int × Bool)) :
    List SweepEntry :=
  cycles.foldl (fun fs c => if c.2 then fs else cleanup_old_files c.1 fs) fs0

/-- C7: one sweep cycle deletes exactly the regular files older than 600
seconds whose handling raises no per-file error (a 599-second-old file
stays); an erroring entry is kept without stopping the sweep of the rest,
and a failing cycle leaves the later cycles of the loop unaffected. -/
theorem claim_C7 (now : Int) (fs : List SweepEntry) :
    (cleanup_old_files now fs =
      fs.filter (fun e => !(e.isFile && !e.raisesErr && decide (600 < now - e.mtime)))) ∧
    (∀ e : SweepEntry, e.isFile = true → e.raisesErr = false → now - e.mtime = 601 →
      cleanup_old_files now [e] = []) ∧
    (∀ e : SweepEntry, now - e.mtime = 599 → cleanup_old_files now [e] = [e]) ∧
    (∀ (e : SweepEntry) (rest : List SweepEntry), e.isFile = true → e.raisesErr = true →
      cleanup_old_files now (e :: rest) = e :: cleanup_old_files now rest) ∧
    (∀ (fs0 : List SweepEntry) (t : Int) (cycles : List (Int × Bool)),
      cleanup_loop_cycles fs0 ((t, true) :: cycles) = cleanup_loop_cycles fs0 cycles) := by
  refine ⟨?_, ?_, ?_, ?_, fun fs0 t cycles => rfl⟩
  · induction fs with
    | nil => rfl
    | cons e rest ih =>
      by_cases h1 : e.isFile = true
      · by_cases h2 : e.raisesErr = true
        · simp [cleanup_old_files, h1, h2, ih]
        · by_cases h3 : 600 < now - e.mtime
          · simp [cleanup_old_files, h1, h2, h3, ih]
          · simp [cleanup_old_files, h1, h2, h3, ih]
      · simp [cleanup_old_files, h1, ih]
  · intro e h1 h2 h3
    simp [cleanup_old_files, h1, h2, h3]
  · intro e h
    by_cases h1 : e.isFile = true
    · by_cases h2 : e.raisesErr = true
      · simp [cleanup_old_files, h1, h2]
      · simp [cleanup_old_files, h1, h2, h]
    · simp [cleanup_old_files, h1]
  · intro e rest h1 h2
    simp [cleanup_old_files, h1, h2]

/-- Witness for C7: the two files of the spec scenario, aged 601 and 599
seconds at sweep time 1000. -/
theorem claim_C7_witness :
    cleanup_old_files 1000 [⟨("old.mp4"), true, 399, false⟩] = [] ∧
    cleanup_old_files 1000 [⟨("new.mp4"), true, 401, false⟩] =
      [⟨("new.mp4"), true, 401, false⟩] :=
  ⟨(claim_C7 1000 []).2.1 ⟨("old.mp4"), true, 399, false⟩ rfl rfl (by decide),
    (claim_C7 1000 []).2.2.1 ⟨("new.mp4"), true, 401, false⟩ (by decide)⟩

/-- Where one request of the `/download` endpoint stands: not yet at the
semaphore, denied at the timeout, holding a slot before the counter bump
(between lines 76 and 83), running the job with the counter bumped,
past the counter decrement of line 93, or done after the release of
line 94. -/
inductive Phase where
  | start
  | denied
  | acquired
  | running
  | decremented
  | released
deriving DecidableEq

/-- The process-wide picture: the semaphore value, `active_downloads`, and
the multiset of request phases. -/
structure CState where
  available : Nat
  active : Int
  jobs : Multiset Phase

/-- One atomic step of one request, interleaved arbitrarily with the other
requests.  A grant requires a free slot; the counter moves exactly once
after a grant and exactly once before the release, on success and on
failure alike (the `finally` of lines 92-94). -/
inductive Step : CState → CState → Prop where
  | deny (a : Nat) (c : Int) (m : Multiset Phase) :
      Step ⟨a, c, Phase.start ::ₘ m⟩ ⟨a, c, Phase.denied ::ₘ m⟩
  | acquire (a : Nat) (c : Int) (m : Multiset Phase) :
      Step ⟨a + 1, c, Phase.start ::ₘ m⟩ ⟨a, c, Phase.acquired ::ₘ m⟩
  | increment (a : Nat) (c : Int) (m : Multiset Phase) :
      Step ⟨a, c, Phase.acquired ::ₘ m⟩ ⟨a, c + 1, Phase.running ::ₘ m⟩
  | decrement (a : Nat) (c : Int) (m : Multiset Phase) :
      Step ⟨a, c, Phase.running ::ₘ m⟩ ⟨a, c - 1, Phase.decremented ::ₘ m⟩
  | release (a : Nat) (c : Int) (m : Multiset Phase) :
      Step ⟨a, c, Phase.decremented ::ₘ m⟩ ⟨a + 1, c, Phase.released ::ₘ m⟩

/-- States reachable from `n` fresh requests against a pool of `N` slots. -/
inductive Reachable (N n : Nat) : CState → Prop where
  | init : Reachable N n ⟨N, 0, Multiset.replicate n Phase.start⟩
  | step {s s' : CState} : Reachable N n s → Step s s' → Reachable N n s'

/-- How many requests currently hold a slot. -/
def heldCount (m : Multiset Phase) : Nat :=
  m.count Phase.acquired + m.count Phase.running + m.count Phase.decremented

/-- The reachable-state invariant: slots out equal slot holders, and the
active counter equals the number of requests inside the counter bracket. -/
lemma reachable_inv {N n : Nat} {s : CState} (h : Reachable N n s) :
    s.available + heldCount s.jobs = N ∧
    s.active = (s.jobs.count Phase.running : Int) := by
  induction h with
  | init =>
    constructor
    · simp [heldCount, Multiset.count_replicate]
    · simp [Multiset.count_replicate]
  | step _ hstep ih =>
    obtain ⟨ih1, ih2⟩ := ih
    cases hstep with
    | deny a c m =>
      simp only [heldCount, Multiset.count_cons] at ih1 ih2 ⊢
      constructor
      · simp_all
      · simp_all
    | acquire a c m =>
      simp only [heldCount, Multiset.count_cons] at ih1 ih2 ⊢
      constructor
      · simp_all
        omega
      · simp_all
    | increment a c m =>
      simp only [heldCount, Multiset.count_cons] at ih1 ih2 ⊢
      constructor
      · simp_all
        omega
      · simp_all
    | decrement a c m =>
      simp only [heldCount, Multiset.count_cons] at ih1 ih2 ⊢
      constructor
      · simp_all
        omega
      · simp_all
    | release a c m =>
      simp only [heldCount, Multiset.count_cons] at ih1 ih2 ⊢
      constructor
      · simp_all
        omega
      · simp_all

/-- C1: in every reachable interleaving of concurrent download requests the
`active_downloads` counter stays within `[0, MAX_CONCURRENT]`, the missing
pool units always equal the number of requests holding a slot (so release
pairs with every successful acquire), and once every request is settled the
pool is back at `MAX_CONCURRENT` with the counter at zero; moreover a
single endpoint call, on the grant path and the denial path, on job success
and on job failure, returns the counters to their values from before the
call. -/
theorem claim_C1 :
    (∀ (N n : Nat) (s : CState), Reachable N n s →
      (0 ≤ s.active ∧ s.active ≤ (N : Int)) ∧
      s.available + heldCount s.jobs = N ∧
      ((∀ p ∈ s.jobs, p = Phase.denied ∨ p = Phase.released) →
        s.available = N ∧ s.active = 0)) ∧
    (∀ (maxDuration maxFileSizeMb : Nat) (st : SrvState) (filename : Option String)
      (nowMs : Nat) (fsBefore fsAfterEngine : List (String × Nat))
      (engine : Except String EngineInfo) (granted : Bool),
      (granted = true → 0 < st.available) →
      (download_video maxDuration maxFileSizeMb st granted filename nowMs fsBefore
          fsAfterEngine engine).1 = st) := by
  constructor
  · intro N n s h
    obtain ⟨h1, h2⟩ := reachable_inv h
    refine ⟨⟨?_, ?_⟩, h1, ?_⟩
    · rw [h2]
      exact Int.ofNat_nonneg _
    · rw [h2]
      have : s.jobs.count Phase.running ≤ N := by
        have := heldCount
        simp only [heldCount] at h1
        omega
      exact_mod_cast this
    · intro hall
      have ha : Phase.acquired ∉ s.jobs := by
        intro hmem
        rcases hall _ hmem with h | h <;> simp at h
      have hr : Phase.running ∉ s.jobs := by
        intro hmem
        rcases hall _ hmem with h | h <;> simp at h
      have hd : Phase.decremented ∉ s.jobs := by
        intro hmem
        rcases hall _ hmem with h | h <;> simp at h
      have hz : heldCount s.jobs = 0 := by
        simp [heldCount, Multiset.count_eq_zero.mpr, ha, hr, hd]
      constructor
      · omega
      · rw [h2, Multiset.count_eq_zero.mpr hr]
        rfl
  · intro maxDuration maxFileSizeMb st filename nowMs fsBefore fsAfterEngine engine granted hgr
    cases granted with
    | false => simp [download_video]
    | true =>
      obtain ⟨a, c⟩ := st
      have hav : 0 < a := hgr rfl
      cases hm : (download maxFileSizeMb filename nowMs fsAfterEngine engine).2 with
      | error e =>
        simp [download_video, hm, SrvState.mk.injEq]
        omega
      | ok r =>
        simp [download_video, hm, SrvState.mk.injEq]
        omega

/-- Witness for C1: a one-slot pool with one request stepped through
acquire, increment, decrement and release, and one concrete endpoint call
on a failing engine. -/
theorem claim_C1_witness :
    ((0 ≤ (0 : Int) ∧ (0 : Int) ≤ (1 : Int)) ∧
      1 + heldCount (Phase.released ::ₘ 0) = 1 ∧
      ((1 : Nat) = 1 ∧ (0 : Int) = 0)) ∧
    (download_video 600 100 ⟨5, 0⟩ true none 0 [] [] (Except.error ("boom"))).1 =
      ⟨5, 0⟩ := by
  constructor
  · have tr : Reachable 1 1 ⟨1, 0, Phase.released ::ₘ 0⟩ :=
      Reachable.step (Reachable.step (Reachable.step (Reachable.step Reachable.init
        (Step.acquire 0 0 0)) (Step.increment 0 0 0)) (Step.decrement 0 1 0))
        (Step.release 0 0 0)
    exact ⟨(claim_C1.1 1 1 _ tr).1, (claim_C1.1 1 1 _ tr).2.1,
      (claim_C1.1 1 1 _ tr).2.2 (by decide)⟩
  · exact claim_C1.2 600 100 ⟨5, 0⟩ none 0 [] [] (Except.error ("boom")) true
      (fun _ => by decide)

end Shoukaku
